import Mathlib

/-!
Verification of the map-PDF service core (src/main.py) against its
natural-language specification.  The embedding models numbers as exact
rationals: Python floats are IEEE-754 binary64, but none of the verified
properties depend on binary rounding, only on which tokens are parsed and
which branches are taken.  Network effects (URL-shortener expansion,
geocoding, static-map fetching) are modelled as oracle parameters, and the
database as an explicit list of usage records.
-/

namespace MapApp

attribute [local semireducible] Rat.mul Rat.add Rat.sub Rat.inv Rat.ofScientific

/-- Floor of a rational, computed from its normalized numerator and
denominator with flooring integer division. -/
def ratFloor (q : ℚ) : Int := Int.fdiv q.num (q.den : Int)

/-- Python's builtin round: round-half-to-even (banker's rounding). -/
def pyRound (q : ℚ) : Int :=
  let n := ratFloor q
  let f := q - (n : ℚ)
  if f < 1/2 then n
  else if 1/2 < f then n + 1
  else if n % 2 = 0 then n else n + 1

/-- DPI constant, main.py line 32. -/
def DPI : ℚ := 300

/-- MM_PER_INCH constant, main.py line 33. -/
def MM_PER_INCH : ℚ := 25.4

/-- A4_WIDTH_MM constant, main.py line 34 (the code uses 297mm as the width). -/
def A4_WIDTH_MM : ℚ := 297

/-- A4_HEIGHT_MM constant, main.py line 35 (the code uses 210mm as the height). -/
def A4_HEIGHT_MM : ℚ := 210

/-- mm_to_px, main.py line 38: round(mm * DPI / MM_PER_INCH). -/
def mm_to_px (mm : ℚ) : Int := pyRound (mm * DPI / MM_PER_INCH)

/-- A4_WIDTH_PX, main.py line 41. -/
def A4_WIDTH_PX : Int := mm_to_px A4_WIDTH_MM

/-- A4_HEIGHT_PX, main.py line 42. -/
def A4_HEIGHT_PX : Int := mm_to_px A4_HEIGHT_MM

/-- PLAN_LIMITS dict, main.py lines 73-77. -/
def PLAN_LIMITS : List (String × Nat) := [("demo", 5), ("lite", 20), ("standard", 50)]

/-- PLAN_LIMITS.get(plan, 5), the lookup used at main.py lines 96, 609, 689, 800. -/
def PLAN_LIMITS_get (plan : String) : Nat := (PLAN_LIMITS.lookup plan).getD 5

/-- The fields of the ORM User object that the quota gate reads. -/
structure UserT where
  id : Nat
  plan : String

/-- get_monthly_usage_count, main.py lines 83-91: usage records are modelled as
(user_id, created_at) pairs with an abstract Nat timeline; the function counts
the records of the user created at or after the first instant of the current
UTC month. -/
def get_monthly_usage_count (logs : List (Nat × Nat)) (userId monthStart : Nat) : Nat :=
  (logs.filter (fun l => l.1 == userId && decide (monthStart ≤ l.2))).length

/-- get_remaining_count, main.py lines 94-98: max(0, limit - used). -/
def get_remaining_count (logs : List (Nat × Nat)) (user : UserT) (monthStart : Nat) : Int :=
  max 0 ((PLAN_LIMITS_get user.plan : Int) - (get_monthly_usage_count logs user.id monthStart : Int))

/-- can_generate_pdf, main.py lines 101-103: remaining count strictly positive. -/
def can_generate_pdf (logs : List (Nat × Nat)) (user : UserT) (monthStart : Nat) : Bool :=
  decide (0 < get_remaining_count logs user monthStart)

/-- Failure reasons of the coordinate resolver (the HTTPException branches of
resolve_coordinates / parse_google_maps_url, main.py lines 207-303). -/
inductive ResolveError
  | urlResolutionFailed
  | invalidCoordinateFormat
  | geocodingFailed
  | noLocationProvided
deriving DecidableEq

/-- Failure reasons of generate_pdf (main.py lines 362-490): a resolver
failure, or an image fetch failure carrying the zoom level. -/
inductive GenError
  | resolveFailed (e : ResolveError)
  | imageFetchFailed (zoom : Nat)
deriving DecidableEq

/-- The responses of the /generate-pdf endpoint that matter to the usage-log
claims (main.py lines 667-735). -/
inductive EndpointResponse
  | redirectLogin
  | limitReached
  | pdfStream
  | generationError (e : GenError)
deriving DecidableEq

/-- generate_pdf_endpoint, main.py lines 667-735, restricted to its
control-flow over the usage store.  genResult stands for the outcome of the
generate_pdf call (which performs resolution, fetching and composition); the
usage record (user.id, now) is added to the store only in the branch where
that call returned normally, which in the source happens after composition
succeeds and before the StreamingResponse is built. -/
def generate_pdf_endpoint (userOpt : Option UserT) (logs : List (Nat × Nat))
    (monthStart now : Nat) (genResult : Except GenError Unit) :
    EndpointResponse × List (Nat × Nat) :=
  match userOpt with
  | none => (.redirectLogin, logs)
  | some u =>
    if can_generate_pdf logs u monthStart then
      match genResult with
      | .error e => (.generationError e, logs)
      | .ok _ => (.pdfStream, logs ++ [(u.id, now)])
    else (.limitReached, logs)

/-- Every plan ceiling returned by the lookup is one of 5, 20, 50. -/
theorem PLAN_LIMITS_get_cases (p : String) :
    PLAN_LIMITS_get p = 5 ∨ PLAN_LIMITS_get p = 20 ∨ PLAN_LIMITS_get p = 50 := by
  unfold PLAN_LIMITS_get PLAN_LIMITS
  cases h1 : p == "demo" <;> cases h2 : p == "lite" <;> cases h3 : p == "standard" <;>
    simp [List.lookup, h1, h2, h3]

/-- Every plan ceiling is at least 1. -/
theorem PLAN_LIMITS_get_pos (p : String) : 1 ≤ PLAN_LIMITS_get p := by
  rcases PLAN_LIMITS_get_cases p with h | h | h <;> omega

/-- An unrecognized plan name falls back to the default ceiling 5. -/
theorem PLAN_LIMITS_get_default (p : String) (h1 : p ≠ "demo") (h2 : p ≠ "lite")
    (h3 : p ≠ "standard") : PLAN_LIMITS_get p = 5 := by
  unfold PLAN_LIMITS_get PLAN_LIMITS
  have b1 : (p == "demo") = false := beq_eq_false_iff_ne.mpr h1
  have b2 : (p == "lite") = false := beq_eq_false_iff_ne.mpr h2
  have b3 : (p == "standard") = false := beq_eq_false_iff_ne.mpr h3
  simp [List.lookup, b1, b2, b3]

/-- C2: for an account whose monthly usage count equals its plan ceiling the
authorization check denies generation, and for an account at ceiling minus
one it allows generation with a remaining count of exactly 1. -/
theorem usage_gate_at_ceiling (logs : List (Nat × Nat)) (u : UserT) (ms : Nat) :
    (get_monthly_usage_count logs u.id ms = PLAN_LIMITS_get u.plan →
      can_generate_pdf logs u ms = false) ∧
    (get_monthly_usage_count logs u.id ms = PLAN_LIMITS_get u.plan - 1 →
      can_generate_pdf logs u ms = true ∧ get_remaining_count logs u ms = 1) := by
  have hl := PLAN_LIMITS_get_pos u.plan
  constructor
  · intro h
    have hr : get_remaining_count logs u ms = 0 := by
      unfold get_remaining_count
      rw [h]
      simp only [max_def]
      split <;> omega
    simp [can_generate_pdf, hr]
  · intro h
    have hr : get_remaining_count logs u ms = 1 := by
      unfold get_remaining_count
      rw [h]
      simp only [max_def]
      split <;> omega
    constructor
    · simp [can_generate_pdf, hr]
    · exact hr

/-- Witness for usage_gate_at_ceiling: a demo account (ceiling 5) with five
records this month is denied, and with four records is allowed with
remaining 1. -/
theorem usage_gate_at_ceiling_w :
    can_generate_pdf [(1, 3), (1, 3), (1, 3), (1, 3), (1, 3)] ⟨1, "demo"⟩ 0 = false ∧
    (can_generate_pdf [(1, 3), (1, 3), (1, 3), (1, 3)] ⟨1, "demo"⟩ 0 = true ∧
      get_remaining_count [(1, 3), (1, 3), (1, 3), (1, 3)] ⟨1, "demo"⟩ 0 = 1) :=
  ⟨(usage_gate_at_ceiling [(1, 3), (1, 3), (1, 3), (1, 3), (1, 3)] ⟨1, "demo"⟩ 0).1 (by decide),
   (usage_gate_at_ceiling [(1, 3), (1, 3), (1, 3), (1, 3)] ⟨1, "demo"⟩ 0).2 (by decide)⟩

/-- C10: the remaining count is never negative; when the monthly usage count
exceeds the plan ceiling the remaining count is 0 and authorization is
denied; an unrecognized plan name falls back to the default ceiling 5. -/
theorem remaining_count_nonneg :
    (∀ (logs : List (Nat × Nat)) (u : UserT) (ms : Nat),
      0 ≤ get_remaining_count logs u ms) ∧
    (∀ (logs : List (Nat × Nat)) (u : UserT) (ms : Nat),
      PLAN_LIMITS_get u.plan < get_monthly_usage_count logs u.id ms →
      get_remaining_count logs u ms = 0 ∧ can_generate_pdf logs u ms = false) ∧
    (∀ p : String, p ≠ "demo" → p ≠ "lite" → p ≠ "standard" → PLAN_LIMITS_get p = 5) := by
  refine ⟨?_, ?_, PLAN_LIMITS_get_default⟩
  · intro logs u ms
    exact le_max_left 0 _
  · intro logs u ms h
    have hr : get_remaining_count logs u ms = 0 := by
      unfold get_remaining_count
      simp only [max_def]
      split <;> omega
    exact ⟨hr, by simp [can_generate_pdf, hr]⟩

/-- Witness for remaining_count_nonneg: an account on an unknown plan "gold"
(ceiling 5) with six records this month has remaining 0 and is denied. -/
theorem remaining_count_nonneg_w :
    get_remaining_count [(2, 0), (2, 0), (2, 0), (2, 0), (2, 0), (2, 0)] ⟨2, "gold"⟩ 0 = 0 ∧
    can_generate_pdf [(2, 0), (2, 0), (2, 0), (2, 0), (2, 0), (2, 0)] ⟨2, "gold"⟩ 0 = false :=
  remaining_count_nonneg.2.1 [(2, 0), (2, 0), (2, 0), (2, 0), (2, 0), (2, 0)] ⟨2, "gold"⟩ 0
    (by decide)

/-- C3: for an authorized request, exactly one usage record is appended when
the generation call returns normally (in the source the append sits after
composition succeeds and before the response is returned), and no usage
record is appended when resolution, fetching or composition fails. -/
theorem endpoint_usage_append (u : UserT) (logs : List (Nat × Nat)) (ms now : Nat)
    (gen : Except GenError Unit) (hauth : can_generate_pdf logs u ms = true) :
    (gen = .ok () →
      generate_pdf_endpoint (some u) logs ms now gen = (.pdfStream, logs ++ [(u.id, now)])) ∧
    (∀ e, gen = .error e →
      generate_pdf_endpoint (some u) logs ms now gen = (.generationError e, logs)) := by
  constructor
  · intro hg
    subst hg
    simp [generate_pdf_endpoint, hauth]
  · intro e hg
    subst hg
    simp [generate_pdf_endpoint, hauth]

/-- Witness for endpoint_usage_append: a fresh demo account; a normal
generation appends exactly the record (1, 7), a failed fetch leaves the
store unchanged. -/
theorem endpoint_usage_append_w :
    generate_pdf_endpoint (some ⟨1, "demo"⟩) [] 0 7 (.ok ()) = (.pdfStream, [(1, 7)]) ∧
    generate_pdf_endpoint (some ⟨1, "demo"⟩) [] 0 7 (.error (.imageFetchFailed 17)) =
      (.generationError (.imageFetchFailed 17), []) :=
  ⟨(endpoint_usage_append ⟨1, "demo"⟩ [] 0 7 (.ok ()) (by decide)).1 rfl,
   (endpoint_usage_append ⟨1, "demo"⟩ [] 0 7 (.error (.imageFetchFailed 17)) (by decide)).2
     (.imageFetchFailed 17) rfl⟩

/-- C5 counterexample: the page canvas is 3508 px wide and 2480 px tall, so
it is not A4 portrait (a portrait page has width at most height); the code
takes 297mm as the width and 210mm as the height, which is A4 landscape. -/
theorem a4_portrait_cx :
    A4_WIDTH_PX = 3508 ∧ A4_HEIGHT_PX = 2480 ∧ ¬ (A4_WIDTH_PX ≤ A4_HEIGHT_PX) := by
  refine ⟨by decide, by decide, by decide⟩

/-- C5 (amended): the composed page canvas has the fixed physical size of A4
landscape at 300 DPI, each side computed as round(mm * dpi / 25.4), giving
exactly 3508 x 2480 pixels (width x height). -/
theorem a4_canvas_dims :
    mm_to_px A4_WIDTH_MM = 3508 ∧ mm_to_px A4_HEIGHT_MM = 2480 ∧
    A4_WIDTH_PX = 3508 ∧ A4_HEIGHT_PX = 2480 := by
  refine ⟨by decide, by decide, by decide, by decide⟩

/-! Character-level model of the coordinate-parsing pipeline.  The regular
expressions of main.py are embedded as deterministic maximal-munch matchers:
for each pattern used by the code, the greedy quantifiers consume only digits
or a dot, characters that can never equal the delimiter required next, so
the backtracking search of the re module coincides with maximal munch. -/

/-- The whitespace class of the re module and of str.strip, restricted to
ASCII (the sources are URLs and form fields; non-ASCII whitespace is outside
the modelled fragment). -/
def isPySpace (c : Char) : Bool :=
  c == ' ' || c == '\t' || c == '\n' || c == '\r' || c == '\x0b' || c == '\x0c'

/-- Python str.strip() on both ends. -/
def pyTrim (s : String) : String :=
  ⟨((s.data.dropWhile isPySpace).reverse.dropWhile isPySpace).reverse⟩

/-- Python str.split(sep) for a one-character separator. -/
def splitOnChar (sep : Char) : List Char → List (List Char)
  | [] => [[]]
  | c :: rest =>
    if c = sep then [] :: splitOnChar sep rest
    else
      match splitOnChar sep rest with
      | h :: t => (c :: h) :: t
      | [] => [[c]]

/-- Whether the first list is an initial run of the second
(Python str.startswith). -/
def hasPfx : List Char → List Char → Bool
  | [], _ => true
  | _ :: _, [] => false
  | l :: ls, c :: cs => c == l && hasPfx ls cs

/-- Whether the first list occurs somewhere in the second
(Python's `in` on strings). -/
def hasInfix (needle : List Char) : List Char → Bool
  | [] => hasPfx needle []
  | c :: cs => hasPfx needle (c :: cs) || hasInfix needle cs

/-- Consume an exact literal, returning the rest. -/
def dropLit : List Char → List Char → Option (List Char)
  | [], cs => some cs
  | _ :: _, [] => none
  | l :: ls, c :: cs => if c = l then dropLit ls cs else none

/-- re.search: try the matcher at each position from the left, first
success wins. -/
def searchList {α : Type} (m : List Char → Option α) : List Char → Option α
  | [] => m []
  | c :: cs =>
    match m (c :: cs) with
    | some r => some r
    | none => searchList m cs

/-- Value of a digit run. -/
def digitsVal (ds : List Char) : Nat :=
  ds.foldl (fun a c => 10 * a + (c.toNat - 48)) 0

/-- Value of a fraction-digit run. -/
def fracVal (fs : List Char) : ℚ :=
  (digitsVal fs : ℚ) / (10 : ℚ) ^ fs.length

/-- Signed decimal value from integer digits and fraction digits. -/
def signedVal (neg : Bool) (ds fs : List Char) : ℚ :=
  (if neg then -1 else 1) * ((digitsVal ds : ℚ) + fracVal fs)

/-- Optional leading minus sign. -/
def stripNeg : List Char → Bool × List Char
  | '-' :: r => (true, r)
  | cs => (false, cs)

/-- Matcher for the number shape used by the specific URL patterns of
extract_coords_from_url: optional minus, one or more digits, optional dot,
zero or more digits (maximal munch).  Returns the value and the rest. -/
def matchLooseNum (cs : List Char) : Option (ℚ × List Char) :=
  let sn := stripNeg cs
  let p1 := sn.2.span Char.isDigit
  if p1.1 = [] then none
  else
    match p1.2 with
    | '.' :: r =>
      let p2 := r.span Char.isDigit
      some (signedVal sn.1 p1.1 p2.1, p2.2)
    | r => some (signedVal sn.1 p1.1 [], r)

/-- Matcher for the number shape of the generic fallback pattern
(main.py line 187): optional minus, one to three digits, a dot, at least
three digits.  The digit runs are consumed maximally; a run of more than
three integer digits fails because every shorter attempt is followed by a
digit rather than the required dot. -/
def matchStrictNum (cs : List Char) : Option (ℚ × List Char) :=
  let sn := stripNeg cs
  let p1 := sn.2.span Char.isDigit
  if p1.1.length < 1 ∨ 3 < p1.1.length then none
  else
    match p1.2 with
    | '.' :: r =>
      let p2 := r.span Char.isDigit
      if p2.1.length < 3 then none
      else some (signedVal sn.1 p1.1 p2.1, p2.2)
    | _ => none

/-- Attempt, at the current position, a literal followed by
number-comma-number, with an optional plus after the comma when the source
pattern has one (the /maps/search/ and /maps/dir/ regexes). -/
def tryLitPair (lit : List Char) (allowPlus : Bool) (cs : List Char) :
    Option (ℚ × ℚ) := do
  let r ← dropLit lit cs
  let (a, r1) ← matchLooseNum r
  let r2 ← dropLit [','] r1
  let r3 := if allowPlus then
      match r2 with
      | '+' :: t => t
      | _ => r2
    else r2
  let (b, _) ← matchLooseNum r3
  pure (a, b)

/-- Attempt, at the current position, a literal followed by one number
(the !3d and !4d regexes). -/
def tryBareNum (lit : List Char) (cs : List Char) : Option ℚ := do
  let r ← dropLit lit cs
  let (a, _) ← matchLooseNum r
  pure a

/-- Attempt, at the current position, the generic fallback pair of main.py
line 187: strict number, comma, optional single whitespace, optional plus,
strict number. -/
def tryFallbackPair (cs : List Char) : Option (ℚ × ℚ) := do
  let (a, r1) ← matchStrictNum cs
  let r2 ← dropLit [','] r1
  let r3 := match r2 with
    | c :: t => if isPySpace c then t else c :: t
    | [] => []
  let r4 := match r3 with
    | '+' :: t => t
    | _ => r3
  let (b, _) ← matchStrictNum r4
  pure (a, b)

/-- The @lat,lng pattern, main.py line 145. -/
def searchAtPair (url : String) : Option (ℚ × ℚ) :=
  searchList (tryLitPair ['@'] false) url.data

/-- The /maps/search/lat,+lng pattern, main.py line 150. -/
def searchSlashSearchPair (url : String) : Option (ℚ × ℚ) :=
  searchList (tryLitPair "/maps/search/".data true) url.data

/-- The /maps/dir/lat,+lng pattern, main.py line 155. -/
def searchSlashDirPair (url : String) : Option (ℚ × ℚ) :=
  searchList (tryLitPair "/maps/dir/".data true) url.data

/-- The /place/lat,lng pattern, main.py line 176. -/
def searchPlacePair (url : String) : Option (ℚ × ℚ) :=
  searchList (tryLitPair "/place/".data false) url.data

/-- The !3d lat pattern, main.py line 181. -/
def searchD3 (url : String) : Option ℚ :=
  searchList (tryBareNum "!3d".data) url.data

/-- The !4d lng pattern, main.py line 182. -/
def searchD4 (url : String) : Option ℚ :=
  searchList (tryBareNum "!4d".data) url.data

/-- The generic two-decimal-number pair search, main.py line 187, before
the range check. -/
def searchFallbackPair (url : String) : Option (ℚ × ℚ) :=
  searchList tryFallbackPair url.data

/-- The query component as produced by urllib.parse.urlparse: the part of
the URL after the first question mark, with the fragment (everything from
the first hash sign) removed first. -/
def queryOf (cs : List Char) : List Char :=
  ((cs.takeWhile (fun c => !(c == '#'))).dropWhile (fun c => !(c == '?'))).drop 1

/-- Hexadecimal digit value. -/
def hexVal (c : Char) : Option Nat :=
  if '0' ≤ c ∧ c ≤ '9' then some (c.toNat - 48)
  else if 'a' ≤ c ∧ c ≤ 'f' then some (c.toNat - 87)
  else if 'A' ≤ c ∧ c ≤ 'F' then some (c.toNat - 55)
  else none

/-- Percent-decoding as in urllib.parse.unquote, restricted to single-byte
code points (multi-byte UTF-8 sequences are outside the modelled fragment);
an invalid escape is kept literally. -/
def pctDecode : List Char → List Char
  | [] => []
  | '%' :: a :: b :: rest =>
    match hexVal a, hexVal b with
    | some x, some y => Char.ofNat (16 * x + y) :: pctDecode rest
    | _, _ => '%' :: pctDecode (a :: b :: rest)
  | c :: rest => c :: pctDecode rest

/-- urllib.parse.unquote after replacing plus signs by spaces, as parse_qsl
does for query values. -/
def unquotePlus (cs : List Char) : List Char :=
  pctDecode (cs.map (fun c => if c == '+' then ' ' else c))

/-- urllib.parse.parse_qs (with default arguments) as a key-value list in
query order: segments split on the ampersand, a segment without an equals
sign or with an empty value is skipped, names and values are
plus-and-percent decoded. -/
def parseQS (query : List Char) : List (String × String) :=
  (splitOnChar '&' query).filterMap fun seg =>
    let name := seg.takeWhile (fun c => !(c == '='))
    let rest := seg.dropWhile (fun c => !(c == '='))
    match rest with
    | [] => none
    | _ :: value =>
      if value = [] then none
      else some (⟨unquotePlus name⟩, ⟨unquotePlus value⟩)

/-- params.get(key, [None])[0]: the first value of the key in the URL's
query, if any. -/
def getParam (key url : String) : Option String :=
  (parseQS (queryOf url.data)).lookup key

/-- The anchored coordinate-pair match applied to the q and ll query
parameters (main.py lines 164, 171): number, comma, any whitespace, number,
end of string (Python's dollar anchor also accepts one final newline). -/
def matchQVal (v : String) : Option (ℚ × ℚ) := do
  let (a, r1) ← matchLooseNum v.data
  let r2 ← dropLit [','] r1
  let r3 := r2.dropWhile isPySpace
  let (b, r4) ← matchLooseNum r3
  if r4 = [] ∨ r4 = ['\n'] then pure (a, b) else none

/-- The q query-parameter pattern, main.py lines 160-166. -/
def qParamPair (url : String) : Option (ℚ × ℚ) :=
  (getParam "q" url).bind matchQVal

/-- The ll query-parameter pattern, main.py lines 169-173. -/
def llParamPair (url : String) : Option (ℚ × ℚ) :=
  (getParam "ll" url).bind matchQVal

/-- The final fallback step of extract_coords_from_url, main.py lines
186-193: the generic pair is returned only when latitude and longitude lie
in the valid ranges, otherwise extraction fails. -/
def fallbackRangeCheck (url : String) : Option (ℚ × ℚ) :=
  match searchFallbackPair url with
  | some q =>
    if -90 ≤ q.1 ∧ q.1 ≤ 90 ∧ -180 ≤ q.2 ∧ q.2 ≤ 180 then some q else none
  | none => none

/-- extract_coords_from_url, main.py lines 142-194: the eight coordinate
shapes tried in source order, first hit wins. -/
def extract_coords_from_url (url : String) : Option (ℚ × ℚ) :=
  match searchAtPair url with
  | some p => some p
  | none =>
    match searchSlashSearchPair url with
    | some p => some p
    | none =>
      match searchSlashDirPair url with
      | some p => some p
      | none =>
        match qParamPair url with
        | some p => some p
        | none =>
          match llParamPair url with
          | some p => some p
          | none =>
            match searchPlacePair url with
            | some p => some p
            | none =>
              match searchD3 url with
              | none => fallbackRangeCheck url
              | some la =>
                match searchD4 url with
                | none => fallbackRangeCheck url
                | some lg => some (la, lg)

/-- Optional leading sign, minus or plus. -/
def stripSign : List Char → Bool × List Char
  | '-' :: r => (true, r)
  | '+' :: r => (false, r)
  | cs => (false, cs)

/-- Python's float() on a trimmed token, for the fragment of finite decimal
literals: optional sign, digits with an optional single dot (at least one
digit overall), optional decimal exponent.  The inf/nan words, underscore
separators and non-ASCII digits accepted by float() are outside the
modelled fragment. -/
def parsePyFloatCore (cs : List Char) : Option ℚ :=
  let sn := stripSign cs
  let pInt := sn.2.span Char.isDigit
  let pFrac : List Char × List Char :=
    match pInt.2 with
    | '.' :: r => r.span Char.isDigit
    | _ => ([], pInt.2)
  if pInt.1 = [] ∧ pFrac.1 = [] then none
  else
    let base : ℚ := (digitsVal pInt.1 : ℚ) + fracVal pFrac.1
    let sbase := if sn.1 then -base else base
    match pFrac.2 with
    | [] => some sbase
    | e :: r1 =>
      if e = 'e' ∨ e = 'E' then
        let esn := stripSign r1
        let pe := esn.2.span Char.isDigit
        if pe.1 = [] ∨ ¬ pe.2 = [] then none
        else some (if esn.1 then sbase / (10 : ℚ) ^ digitsVal pe.1
                   else sbase * (10 : ℚ) ^ digitsVal pe.1)
      else none

/-- Python's float() including the surrounding-whitespace stripping it
performs. -/
def parsePyFloatL (cs : List Char) : Option ℚ :=
  parsePyFloatCore (((cs.dropWhile isPySpace).reverse.dropWhile isPySpace).reverse)

/-- The direct-text parse of resolve_coordinates, main.py line 263:
coordinates.split(",") must produce exactly two tokens and both must parse
as floats, otherwise the unpacking or float() raises ValueError. -/
def parseLatLngText (c : String) : Option (ℚ × ℚ) :=
  match splitOnChar ',' c.data with
  | [t1, t2] =>
    match parsePyFloatL t1, parsePyFloatL t2 with
    | some a, some b => some (a, b)
    | _, _ => none
  | _ => none

/-- The anchored number-comma test of main.py line 231, deciding whether a
q parameter looks like a coordinate pair rather than an address. -/
def startsNumComma (v : String) : Bool :=
  match matchLooseNum v.data with
  | some (_, ',' :: _) => true
  | _ => false

/-- parse_google_maps_url, main.py lines 207-248.  The shortener expansion
and the geocoding of an address-like q parameter are network calls,
modelled as oracles returning none on any failure; an expansion failure
aborts with none, a missing or failed geocode falls through to none. -/
def parse_google_maps_url (expand : String → Option String)
    (geocode : String → Option (ℚ × ℚ)) (urlText : String) : Option (ℚ × ℚ) :=
  let u := pyTrim urlText
  if hasPfx "http".data u.data then
    match (if hasInfix "goo.gl".data u.data || hasInfix "maps.app".data u.data
           then expand u else some u) with
    | none => none
    | some u2 =>
      match extract_coords_from_url u2 with
      | some p => some p
      | none =>
        match getParam "q" u2 with
        | some v => if startsNumComma v then none else geocode v
        | none => none
  else none

/-- resolve_coordinates, main.py lines 251-303.  The geocoding branch for a
plain address collapses the provider interaction (HTTP errors, non-OK
status, empty results, missing location fields) into the geocode oracle
returning none; every such outcome is the GeocodingFailed failure. -/
def resolve_coordinates (expand : String → Option String)
    (geocode : String → Option (ℚ × ℚ)) (coordinatesText addressText : String) :
    Except ResolveError (ℚ × ℚ) :=
  if pyTrim coordinatesText = "" then
    if pyTrim addressText = "" then .error .noLocationProvided
    else
      match geocode (pyTrim addressText) with
      | some p => .ok p
      | none => .error .geocodingFailed
  else if hasPfx "http".data (pyTrim coordinatesText).data then
    match parse_google_maps_url expand geocode (pyTrim coordinatesText) with
    | some p => .ok p
    | none => .error .urlResolutionFailed
  else
    match parseLatLngText (pyTrim coordinatesText) with
    | some p => .ok p
    | none => .error .invalidCoordinateFormat

/-- The map-fetch requests issued by generate_pdf, main.py lines 371-378:
the resolved pair is handed unchanged to fetch_map_image at zoom 17, or at
zooms 14 and 17 when the plan's map_count is 2. -/
def fetch_centers (mapCount : Nat) (center : ℚ × ℚ) : List ((ℚ × ℚ) × Nat) :=
  if mapCount = 1 then [(center, 17)] else [(center, 14), (center, 17)]

/-- Digits of a natural number, fuel-driven. -/
def natDigitsAux : Nat → Nat → List Char → List Char
  | 0, _, acc => acc
  | fuel + 1, n, acc =>
    let d := Char.ofNat (48 + n % 10)
    if n < 10 then d :: acc else natDigitsAux fuel (n / 10) (d :: acc)

/-- Decimal rendering of a natural number. -/
def natStr (n : Nat) : String := ⟨natDigitsAux (n + 1) n []⟩

/-- Smallest power of ten clearing the denominator, if within fuel. -/
def decExpAux : Nat → ℚ → Option Nat
  | 0, _ => none
  | fuel + 1, q => if q.den = 1 then some 0 else (decExpAux fuel (q * 10)).map (· + 1)

/-- Python str() of a float whose value has a finite decimal expansion
(every binary64 value does: its reduced denominator is a power of two no
larger than 2 to the 1074, which the fuel covers); an integral value is
rendered with a trailing ".0" as Python does. -/
def pyFloatStr (q : ℚ) : String :=
  let s := if q < 0 then "-" else ""
  let a := if q < 0 then -q else q
  match decExpAux 1100 a with
  | some k =>
    if k = 0 then s ++ natStr a.num.toNat ++ ".0"
    else
      let m := (a * (10 : ℚ) ^ k).num.toNat
      let ip := m / 10 ^ k
      let fp := m % 10 ^ k
      let fpStr := natStr fp
      let pad : List Char := List.replicate (k - fpStr.length) '0'
      s ++ natStr ip ++ "." ++ ⟨pad⟩ ++ fpStr
  | none => s ++ "0.0"

/-- The QR payload URL built by generate_pdf, main.py line 463: an f-string
interpolating the resolved latitude and longitude with a literal comma. -/
def mapsUrl (lat lng : ℚ) : String :=
  "https://www.google.com/maps?q=" ++ pyFloatStr lat ++ "," ++ pyFloatStr lng

deriving instance DecidableEq for Except

/-- A non-empty, non-URL coordinate text whose two-token float parse
succeeds resolves to exactly the parsed pair. -/
theorem resolve_direct_parse (expand : String → Option String)
    (geocode : String → Option (ℚ × ℚ)) (addr s : String) (p : ℚ × ℚ)
    (hne : ¬ pyTrim s = "") (hhttp : hasPfx "http".data (pyTrim s).data = false)
    (hp : parseLatLngText (pyTrim s) = some p) :
    resolve_coordinates expand geocode s addr = .ok p := by
  unfold resolve_coordinates
  rw [if_neg hne, if_neg (by simp [hhttp]), hp]

/-- C1 (amended): resolved coordinates are not always range-validated
before reaching the image fetcher.  Each clause names one unvalidated path:
the direct "lat,lng" text parse returns whatever pair the float parser
produces; the @lat,lng URL pattern extracts its pair with no range check;
the URL-link path of the resolver returns whatever pair the URL parser
produced; the geocoding path returns whatever pair the provider reported;
and generate_pdf hands the resolved pair unchanged to the two map fetch
calls. -/
theorem resolve_direct_text_unchecked (expand : String → Option String)
    (geocode : String → Option (ℚ × ℚ)) (addr : String) :
    (∀ (s : String) (p : ℚ × ℚ),
      ¬ pyTrim s = "" → hasPfx "http".data (pyTrim s).data = false →
      parseLatLngText (pyTrim s) = some p →
      resolve_coordinates expand geocode s addr = .ok p) ∧
    (∀ (u : String) (p : ℚ × ℚ), searchAtPair u = some p →
      extract_coords_from_url u = some p) ∧
    (∀ (s : String) (p : ℚ × ℚ),
      ¬ pyTrim s = "" → hasPfx "http".data (pyTrim s).data = true →
      parse_google_maps_url expand geocode (pyTrim s) = some p →
      resolve_coordinates expand geocode s addr = .ok p) ∧
    (∀ (s t : String) (p : ℚ × ℚ),
      pyTrim s = "" → ¬ pyTrim t = "" → geocode (pyTrim t) = some p →
      resolve_coordinates expand geocode s t = .ok p) ∧
    (∀ p : ℚ × ℚ, fetch_centers 2 p = [(p, 14), (p, 17)]) := by
  refine ⟨?_, ?_, ?_, ?_, fun p => rfl⟩
  · intro s p hne hhttp hp
    exact resolve_direct_parse expand geocode addr s p hne hhttp hp
  · intro u p h
    unfold extract_coords_from_url
    rw [h]
  · intro s p hne hhttp hurl
    unfold resolve_coordinates
    rw [if_neg hne, if_pos hhttp, hurl]
  · intro s t p hc ha hg
    unfold resolve_coordinates
    rw [if_pos hc, if_neg ha, hg]

/-- Witness for resolve_direct_text_unchecked, one out-of-range instance
per clause: the text "999,999", the URL "http://x/@999.5,888.5" through the
@-pattern and through the whole resolver, a geocode result (999, 999) for
an address, and the hand-off of (999, 999) to the two fetch calls. -/
theorem resolve_direct_text_unchecked_w :
    resolve_coordinates (fun _ => none) (fun _ => none) "999,999" "" = .ok (999, 999) ∧
    extract_coords_from_url "http://x/@999.5,888.5" = some (999.5, 888.5) ∧
    resolve_coordinates (fun _ => none) (fun _ => none) "http://x/@999.5,888.5" "" =
      .ok (999.5, 888.5) ∧
    resolve_coordinates (fun _ => none) (fun _ => some (999, 999)) "" "Tokyo" =
      .ok (999, 999) ∧
    fetch_centers 2 (999, 999) = [((999, 999), 14), ((999, 999), 17)] :=
  ⟨(resolve_direct_text_unchecked (fun _ => none) (fun _ => none) "").1
      "999,999" (999, 999) (by decide) (by decide) (by decide),
   (resolve_direct_text_unchecked (fun _ => none) (fun _ => none) "").2.1
      "http://x/@999.5,888.5" (999.5, 888.5) (by decide),
   (resolve_direct_text_unchecked (fun _ => none) (fun _ => none) "").2.2.1
      "http://x/@999.5,888.5" (999.5, 888.5) (by decide) (by decide) (by decide),
   (resolve_direct_text_unchecked (fun _ => none) (fun _ => some (999, 999)) "").2.2.2.1
      "" "Tokyo" (999, 999) (by decide) (by decide) (by decide),
   (resolve_direct_text_unchecked (fun _ => none) (fun _ => none) "").2.2.2.2 (999, 999)⟩

/-- C1 counterexample: the coordinate text "999,999" resolves successfully
to the pair (999, 999) and that pair is handed to the image fetcher,
although 999 is far outside the valid latitude range. -/
theorem resolve_out_of_range_cx :
    resolve_coordinates (fun _ => none) (fun _ => none) "999,999" "" = .ok (999, 999) ∧
    fetch_centers 2 (999, 999) = [((999, 999), 14), ((999, 999), 17)] ∧
    ¬ ((999 : ℚ) ≤ 90) :=
  ⟨by decide, by decide, by decide⟩

/-- C4: a non-URL coordinate text splitting into exactly two decimal float
tokens with latitude in [-90, 90] and longitude in [-180, 180] resolves to
exactly that pair, and a non-URL coordinate text whose parse fails yields
the InvalidCoordinateFormat failure. -/
theorem resolve_latlng_text_exact (expand : String → Option String)
    (geocode : String → Option (ℚ × ℚ)) (addr : String) :
    (∀ (s : String) (t1 t2 : List Char) (a b : ℚ),
      ¬ pyTrim s = "" →
      hasPfx "http".data (pyTrim s).data = false →
      splitOnChar ',' (pyTrim s).data = [t1, t2] →
      parsePyFloatL t1 = some a → parsePyFloatL t2 = some b →
      -90 ≤ a → a ≤ 90 → -180 ≤ b → b ≤ 180 →
      resolve_coordinates expand geocode s addr = .ok (a, b)) ∧
    (∀ s : String, ¬ pyTrim s = "" →
      hasPfx "http".data (pyTrim s).data = false →
      parseLatLngText (pyTrim s) = none →
      resolve_coordinates expand geocode s addr = .error .invalidCoordinateFormat) := by
  constructor
  · intro s t1 t2 a b hne hhttp hsplit h1 h2 _ _ _ _
    refine resolve_direct_parse expand geocode addr s (a, b) hne hhttp ?_
    unfold parseLatLngText
    simp only [hsplit, h1, h2]
  · intro s hne hhttp hp
    unfold resolve_coordinates
    rw [if_neg hne, if_neg (by simp [hhttp]), hp]

/-- Witness for resolve_latlng_text_exact: the two-float text
"35.681236, 139.767125" resolves to exactly that pair, and the
unparseable text "abc" fails with InvalidCoordinateFormat. -/
theorem resolve_latlng_text_exact_w :
    resolve_coordinates (fun _ => none) (fun _ => none) "35.681236, 139.767125" "" =
      .ok (35.681236, 139.767125) ∧
    resolve_coordinates (fun _ => none) (fun _ => none) "abc" "" =
      .error .invalidCoordinateFormat :=
  ⟨(resolve_latlng_text_exact (fun _ => none) (fun _ => none) "").1
      "35.681236, 139.767125" "35.681236".data " 139.767125".data 35.681236 139.767125
      (by decide) (by decide) (by decide) (by decide) (by decide)
      (by decide) (by decide) (by decide) (by decide),
   (resolve_latlng_text_exact (fun _ => none) (fun _ => none) "").2 "abc"
      (by decide) (by decide) (by decide)⟩

/-- C6: on a URL where none of the six higher-priority coordinate shapes
matches, but both the !3d and !4d shapes match and a generic two-decimal
pair is also present, the extractor returns the !3d/!4d pair: the !3d/!4d
pattern is tried before the generic fallback heuristic. -/
theorem extract_d3d4_priority (url : String) (la lg : ℚ) (p : ℚ × ℚ)
    (h1 : searchAtPair url = none) (h2 : searchSlashSearchPair url = none)
    (h3 : searchSlashDirPair url = none) (h4 : qParamPair url = none)
    (h5 : llParamPair url = none) (h6 : searchPlacePair url = none)
    (hlat : searchD3 url = some la) (hlng : searchD4 url = some lg)
    (hfb : searchFallbackPair url = some p) :
    extract_coords_from_url url = some (la, lg) := by
  unfold extract_coords_from_url
  rw [h1, h2, h3, h4, h5, h6, hlat, hlng]

/-- Witness for extract_d3d4_priority: a URL carrying !3d10.5!4d20.5 and
also the generic pair 50.1234,60.5678 extracts to (10.5, 20.5). -/
theorem extract_d3d4_priority_w :
    extract_coords_from_url "http://x/a!3d10.5!4d20.5b50.1234,60.5678" =
      some (10.5, 20.5) :=
  extract_d3d4_priority "http://x/a!3d10.5!4d20.5b50.1234,60.5678" 10.5 20.5
    (50.1234, 60.5678) (by decide) (by decide) (by decide) (by decide) (by decide)
    (by decide) (by decide) (by decide) (by decide)

/-- C7: on a URL where only the generic fallback heuristic finds a pair and
that pair is out of the valid latitude/longitude ranges, the extractor
returns nothing rather than the out-of-range pair. -/
theorem extract_fallback_range_rejected (url : String) (la lg : ℚ)
    (h1 : searchAtPair url = none) (h2 : searchSlashSearchPair url = none)
    (h3 : searchSlashDirPair url = none) (h4 : qParamPair url = none)
    (h5 : llParamPair url = none) (h6 : searchPlacePair url = none)
    (hd : searchD3 url = none ∨ searchD4 url = none)
    (hfb : searchFallbackPair url = some (la, lg))
    (hout : ¬ (-90 ≤ la ∧ la ≤ 90 ∧ -180 ≤ lg ∧ lg ≤ 180)) :
    extract_coords_from_url url = none := by
  have hfall : fallbackRangeCheck url = none := by
    unfold fallbackRangeCheck
    rw [hfb]
    exact if_neg hout
  unfold extract_coords_from_url
  rw [h1, h2, h3, h4, h5, h6]
  rcases hd with hd | hd
  · rw [hd]
    exact hfall
  · cases h3v : searchD3 url with
    | none => exact hfall
    | some x =>
      rw [hd]
      exact hfall

/-- Witness for extract_fallback_range_rejected: the URL
"http://x/500.1234,600.5678" only matches the generic heuristic, with an
out-of-range pair, and extraction returns none. -/
theorem extract_fallback_range_rejected_w :
    extract_coords_from_url "http://x/500.1234,600.5678" = none :=
  extract_fallback_range_rejected "http://x/500.1234,600.5678" 500.1234 600.5678
    (by decide) (by decide) (by decide) (by decide) (by decide) (by decide)
    (Or.inl (by decide)) (by decide) (by decide)

/-- C8: the QR payload built from (35.681236, 139.767125) is exactly the
URL with a literal comma and a single q parameter, and re-parsing it with
the URL coordinate extractor returns the original pair exactly, hence to at
least 6 decimal digits. -/
theorem qr_roundtrip :
    mapsUrl 35.681236 139.767125 = "https://www.google.com/maps?q=35.681236,139.767125" ∧
    extract_coords_from_url (mapsUrl 35.681236 139.767125) =
      some (35.681236, 139.767125) :=
  ⟨by decide, by decide⟩

/-- A raster image as dimensions plus an RGB pixel function (pixels outside
the dimensions are irrelevant). -/
structure PILImage where
  width : Nat
  height : Nat
  px : Nat → Nat → Nat × Nat × Nat

/-- The two-image combination step of generate_pdf, main.py lines 385-395:
a white canvas of width w0 + 6 + w1 and height max(h0, h1); the first image
pasted at (0, 0), the second at (w0 + 6, 0), and a black separator
rectangle drawn last over the inclusive pixel box from (w0, 0) to
(w0 + 5, height) (clipped to the canvas). -/
def combineMaps (img0 img1 : PILImage) : PILImage where
  width := img0.width + 6 + img1.width
  height := max img0.height img1.height
  px := fun x y =>
    if img0.width ≤ x ∧ x ≤ img0.width + 5 ∧ y ≤ max img0.height img1.height then
      (0, 0, 0)
    else if x < img0.width ∧ y < img0.height then img0.px x y
    else if img0.width + 6 ≤ x ∧ x < img0.width + 6 + img1.width ∧ y < img1.height then
      img1.px (x - (img0.width + 6)) y
    else (255, 255, 255)

/-- C9: for any two map images, including images of differing heights, the
combined canvas is as tall as the taller image and as wide as both images
plus the fixed 6-pixel separator; the separator columns are black over the
whole combined height (the bar exactly spans it); and the two images sit
side by side unaltered. -/
theorem compose_two_images (img0 img1 : PILImage) :
    (combineMaps img0 img1).width = img0.width + 6 + img1.width ∧
    (combineMaps img0 img1).height = max img0.height img1.height ∧
    (∀ y, y < (combineMaps img0 img1).height → ∀ dx, dx < 6 →
      (combineMaps img0 img1).px (img0.width + dx) y = (0, 0, 0)) ∧
    (∀ x y, x < img0.width → y < img0.height →
      (combineMaps img0 img1).px x y = img0.px x y) ∧
    (∀ x y, x < img1.width → y < img1.height →
      (combineMaps img0 img1).px (img0.width + 6 + x) y = img1.px x y) := by
  refine ⟨rfl, rfl, ?_, ?_, ?_⟩
  · intro y hy dx hdx
    simp only [combineMaps] at hy ⊢
    rw [if_pos ⟨Nat.le_add_right _ _, by omega, Nat.le_of_lt hy⟩]
  · intro x y hx hy
    simp only [combineMaps]
    rw [if_neg (by omega), if_pos ⟨hx, hy⟩]
  · intro x y hx hy
    simp only [combineMaps]
    rw [if_neg (by omega), if_neg (by omega), if_pos ⟨by omega, by omega, hy⟩]
    have he : img0.width + 6 + x - (img0.width + 6) = x := by omega
    rw [he]

/-- Witness for compose_two_images on two concrete blank images of heights
3 and 5: the canvas is 12 wide and 5 tall, a separator pixel at (2, 4) is
black, and the pasted images keep their pixels. -/
theorem compose_two_images_w :
    (combineMaps ⟨2, 3, fun _ _ => (9, 9, 9)⟩ ⟨4, 5, fun _ _ => (7, 7, 7)⟩).width = 12 ∧
    (combineMaps ⟨2, 3, fun _ _ => (9, 9, 9)⟩ ⟨4, 5, fun _ _ => (7, 7, 7)⟩).height = 5 ∧
    (combineMaps ⟨2, 3, fun _ _ => (9, 9, 9)⟩ ⟨4, 5, fun _ _ => (7, 7, 7)⟩).px 2 4 = (0, 0, 0) ∧
    (combineMaps ⟨2, 3, fun _ _ => (9, 9, 9)⟩ ⟨4, 5, fun _ _ => (7, 7, 7)⟩).px 1 2 = (9, 9, 9) ∧
    (combineMaps ⟨2, 3, fun _ _ => (9, 9, 9)⟩ ⟨4, 5, fun _ _ => (7, 7, 7)⟩).px 11 4 = (7, 7, 7) :=
  ⟨(compose_two_images ⟨2, 3, fun _ _ => (9, 9, 9)⟩ ⟨4, 5, fun _ _ => (7, 7, 7)⟩).1,
   (compose_two_images ⟨2, 3, fun _ _ => (9, 9, 9)⟩ ⟨4, 5, fun _ _ => (7, 7, 7)⟩).2.1,
   (compose_two_images ⟨2, 3, fun _ _ => (9, 9, 9)⟩ ⟨4, 5, fun _ _ => (7, 7, 7)⟩).2.2.1
     4 (by decide) 0 (by decide),
   (compose_two_images ⟨2, 3, fun _ _ => (9, 9, 9)⟩ ⟨4, 5, fun _ _ => (7, 7, 7)⟩).2.2.2.1
     1 2 (by decide) (by decide),
   (compose_two_images ⟨2, 3, fun _ _ => (9, 9, 9)⟩ ⟨4, 5, fun _ _ => (7, 7, 7)⟩).2.2.2.2
     3 4 (by decide) (by decide)⟩

end MapApp
